import Mathlib

/-!
Verification development for the `jsonrpcbase` JSON-RPC service library.

The definitions below are a shallow embedding of `src/jsonrpcbase/main.py`
(class `JSONRPCService` and its exception hierarchy).  Python values decoded
from JSON are modelled by the inductive `JB.Json`; Python dicts are modelled
as association lists with the insertion/update semantics of dict assignment;
the mutable `request` dict threaded through `_fill_request` is modelled by
explicit state passing; Python exceptions become `Except`/`Option` values.
The external `json` module (`json.loads`/`json.dumps`) and the external
`jsonschema` validator are modelled abstractly at the exact interface the
source uses them.
-/

namespace JB

/-- JSON-representable Python values: `None`, `bool`, `int`, `float`
(carried as a rational), `str`, `list`, `dict`. -/
inductive Json where
  | null : Json
  | bool : Bool → Json
  | int : Int → Json
  | float : Rat → Json
  | str : String → Json
  | arr : List Json → Json
  | obj : List (String × Json) → Json

/-- A Python dict whose keys are strings, as produced by `json.loads` and as
built by the service for responses. -/
abbrev Obj := List (String × Json)

/-- Membership test for a dict key (Python `k in d`). -/
def hasKey (o : Obj) (k : String) : Bool :=
  o.any (fun kv => kv.1 == k)

/-- Dict lookup (Python `d[k]`, guarded by `k in d` at every use site). -/
def lookupKey (o : Obj) (k : String) : Option Json :=
  (o.find? (fun kv => kv.1 == k)).map (fun kv => kv.2)

/-- Python dict assignment `d[k] = v`: update in place if the key exists,
otherwise append preserving insertion order. -/
def setKey (o : Obj) (k : String) (v : Json) : Obj :=
  if o.any (fun kv => kv.1 == k) then
    o.map (fun kv => if kv.1 == k then (k, v) else kv)
  else
    o ++ [(k, v)]

/-- Python truthiness (`bool(x)`) of a decoded JSON value; `_get_err` tests
`not id` on the request id. -/
def falsy : Json → Bool
  | .null => true
  | .bool b => !b
  | .int n => n == 0
  | .float q => q == 0
  | .str s => s == ""
  | .arr l => l.isEmpty
  | .obj l => l.isEmpty

/-- Python string-equality test `v == s` where `v` came from decoded JSON:
true only when `v` is the string `s` (comparison with any other type is
`False` in Python). -/
def isStrVal (v : Json) (s : String) : Bool :=
  match v with
  | .str t => t == s
  | _ => false

/-- The value held in `request['jsonrpc']`: the default is the *string*
`'2.0'` (from `_get_default_vals`), and `_fill_request` overwrites it with an
*int* (20/11/10); `_get_err` branches on `isinstance(jsonrpc, int)`. -/
inductive Ver where
  | s : String → Ver
  | i : Int → Ver

/-- Test `iver == n` for an int literal `n` (a Python string compares unequal
to every int). -/
def Ver.isInt (v : Ver) (n : Int) : Bool :=
  match v with
  | .i m => m == n
  | .s _ => false

/-- The `JSONRPCError` subclasses that `main.py` can actually raise:
`ParseError`, `InvalidRequestError`, `MethodNotFoundError`, `ServerError`.
(`InvalidParamsError`/`KeywordError`/`InternalError` are declared in the
source but unreachable: `add` never stores a `'types'` entry, so
`_validate_params_types` is dead code.) -/
inductive RPCErr where
  | parseError : RPCErr
  | invalidRequest : RPCErr
  | methodNotFound : RPCErr
  | serverError : RPCErr

def RPCErr.isParse : RPCErr → Bool
  | .parseError => true
  | _ => false

def RPCErr.isInvalidReq : RPCErr → Bool
  | .invalidRequest => true
  | _ => false

/-- The `code` class attribute of each reachable `JSONRPCError` subclass. -/
def errCode : RPCErr → Int
  | .parseError => -32700
  | .invalidRequest => -32600
  | .methodNotFound => -32601
  | .serverError => -32000

/-- The `message` class attribute of each reachable `JSONRPCError` subclass. -/
def errMessage : RPCErr → String
  | .parseError => "Parse error"
  | .invalidRequest => "Invalid request"
  | .methodNotFound => "Method not found"
  | .serverError => "Server error"

/-- `JSONRPCError.dumps`: `{'code': ..., 'message': ...}`; `data` is `None`
for every error the source can raise here, so no `data` member is added. -/
def errDumps (e : RPCErr) : Json :=
  .obj [("code", .int (errCode e)), ("message", .str (errMessage e))]

/-- The mutable `request` dict: `_get_default_vals` yields
`{"jsonrpc": "2.0", "id": None}`; `_fill_request` then assigns the four
fields in order, so a failure part-way leaves earlier fields updated. -/
structure Req where
  jsonrpc : Ver
  id : Json
  meth : String
  params : Option Json

/-- `_get_default_vals()` (the `'method'`/`'params'` slots are only read
after a fully successful `_fill_request`, so their defaults are inert). -/
def defaultReq : Req := ⟨.s "2.0", .null, "", none⟩

/-- A handler as stored by `add`: called as `method(params, metadata)`;
an arbitrary raised exception is modelled by `Except.error ()` because
`_call_method` converts every exception uniformly. -/
abbrev Handler := Option Json → Option Json → Except Unit Json

/-- A configured `jsonschema` validator for a method, modelled at the
interface `_call_method` uses: given the request params (Python `None` or a
dict/list), either pass (`none`) or raise `ValidationError` carrying a
message (`some msg`). -/
abbrev Validator := Option Json → Option String

/-- One entry of `self.method_data`: `{'method': f, 'schema': schema}`.
A `none` schema covers both `schema=None` and a falsy (empty) schema, since
`_call_method` guards validation with `if schema:`. -/
structure MethodEntry where
  method : Handler
  schema : Option Validator

/-- The service: `self.method_data`, a dict from method name to entry. -/
structure Service where
  method_data : List (String × MethodEntry)

def Service.hasMethod (svc : Service) (m : String) : Bool :=
  svc.method_data.any (fun kv => kv.1 == m)

def Service.lookup (svc : Service) (m : String) : Option MethodEntry :=
  (svc.method_data.find? (fun kv => kv.1 == m)).map (fun kv => kv.2)

/-- `JSONRPCService.add`: resolves the registration name (`name` argument or
`f.__name__`, here received already resolved as `fname`) and assigns
`self.method_data[fname] = {'method': f, 'schema': schema}` — a plain dict
assignment, which replaces any existing entry under the same name. -/
def add (svc : Service) (fname : String) (f : Handler) (schema : Option Validator) : Service :=
  ⟨if svc.method_data.any (fun kv => kv.1 == fname) then
      svc.method_data.map (fun kv => if kv.1 == fname then (fname, ⟨f, schema⟩) else kv)
    else
      svc.method_data ++ [(fname, ⟨f, schema⟩)]⟩

/-- `_get_jsonrpc`: `'jsonrpc' == '2.0'` gives 20, any other present value
raises `InvalidRequestError`; otherwise `'version' == '1.1'` gives 11; else
v1.0 is assumed. -/
def get_jsonrpc (o : Obj) : Except RPCErr Int :=
  match lookupKey o "jsonrpc" with
  | some v => if isStrVal v "2.0" then .ok 20 else .error .invalidRequest
  | none =>
    match lookupKey o "version" with
    | some v => if isStrVal v "1.1" then .ok 11 else .ok 10
    | none => .ok 10

/-- `_get_id`: a present id must be `str`, `int`, `float` or `None`
(a Python `bool` passes the `isinstance(..., int)` check); any other type
raises `InvalidRequestError`; an absent id means notification (`None`). -/
def get_id (o : Obj) : Except RPCErr Json :=
  match lookupKey o "id" with
  | some v =>
    match v with
    | .str _ => .ok v
    | .int _ => .ok v
    | .float _ => .ok v
    | .bool _ => .ok v
    | .null => .ok .null
    | _ => .error .invalidRequest
  | none => .ok .null

/-- `_get_method`: the field must be present and a string, else
`InvalidRequestError`; an unregistered name raises `MethodNotFoundError`
(which carries no diagnostic `data` in this source). -/
def get_method (svc : Service) (o : Obj) : Except RPCErr String :=
  match lookupKey o "method" with
  | some (.str m) =>
    if svc.hasMethod m then .ok m else .error .methodNotFound
  | some _ => .error .invalidRequest
  | none => .error .invalidRequest

/-- `_get_params`: a present value must be a dict, a list or `None`
(explicit `null` is accepted and, like absence, leaves `params = None`);
any other type raises `InvalidRequestError`. -/
def get_params (o : Obj) : Except RPCErr (Option Json) :=
  match lookupKey o "params" with
  | some v =>
    match v with
    | .obj _ => .ok (some v)
    | .arr _ => .ok (some v)
    | .null => .ok none
    | _ => .error .invalidRequest
  | none => .ok none

/-- `_fill_request`: mutates `request` field by field (`jsonrpc`, `id`,
`method`, `params`, in that order); returns the request as updated up to the
first failing getter, paired with the raised error if any.  A non-dict input
raises `InvalidRequestError` up front. -/
def fill_request (svc : Service) (req : Req) (rdata : Json) : Req × Option RPCErr :=
  match rdata with
  | .obj o =>
    match get_jsonrpc o with
    | .error e => (req, some e)
    | .ok ver =>
      let req := { req with jsonrpc := .i ver }
      match get_id o with
      | .error e => (req, some e)
      | .ok idv =>
        let req := { req with id := idv }
        match get_method svc o with
        | .error e => (req, some e)
        | .ok m =>
          let req := { req with meth := m }
          match get_params o with
          | .error e => (req, some e)
          | .ok p => ({ req with params := p }, none)
  | _ => (req, some .invalidRequest)

/-- `_fill_ver`: adds `'jsonrpc': '2.0'` when the internal version is the int
20 and `'version': '1.1'` when it is 11 (a string version value matches
neither comparison, so nothing is added). -/
def fill_ver (iver : Ver) (respond : Obj) : Obj :=
  let respond := if iver.isInt 20 then setKey respond "jsonrpc" (.str "2.0") else respond
  if iver.isInt 11 then setKey respond "version" (.str "1.1") else respond

/-- `_get_err`: suppresses the response when the id is falsy (`not id`) and
the error is neither `ParseError` nor `InvalidRequestError`; otherwise builds
`{'id': ...}` and then, for v1.0 (int 10), both `result: None` and the bare
error message; for other int versions the version marker plus the error
object; for the default string version, `'jsonrpc'` set to that string plus
the error object. -/
def get_err (e : RPCErr) (id : Json) (jsonrpc : Ver) : Option Obj :=
  if falsy id && !e.isParse && !e.isInvalidReq then none
  else
    some (
      let respond : Obj := [("id", id)]
      match jsonrpc with
      | .i n =>
        if n == 10 then
          setKey (setKey respond "result" .null) "error" (.str (errMessage e))
        else
          setKey (fill_ver (.i n) respond) "error" (errDumps e)
      | .s s =>
        setKey (setKey respond "jsonrpc" (.str s)) "error" (errDumps e))

/-- `_get_jsonschema_err`: builds a `-32602` response from a
`jsonschema.exceptions.ValidationError` message.  Unlike `_get_err` it has no
notification suppression: it always returns a response dict.  For v1.0 it
adds `result: None`; otherwise `_fill_ver` (a no-op for the default string
version, so the response then has no version marker at all). -/
def get_jsonschema_err (msg : String) (id : Json) (jsonrpc : Ver) : Obj :=
  let resp : Obj := [("id", id)]
  let errObj : Json := .obj [("message", .str msg), ("code", .int (-32602))]
  if jsonrpc.isInt 10 then
    setKey (setKey resp "result" .null) "error" errObj
  else
    setKey (fill_ver jsonrpc resp) "error" errObj

/-- The ways `_call_method` can terminate abnormally: raising a
`JSONRPCError` (only `ServerError` in this source), letting a
`jsonschema.exceptions.ValidationError` escape, or a `KeyError` on the
method-name lookup (unreachable in the call flow, where `_get_method` has
already checked membership). -/
inductive CallExn where
  | rpc : RPCErr → CallExn
  | validation : String → CallExn
  | keyError : CallExn

/-- `_call_method`: fetches the stored entry, runs `jsonschema.validate`
when a (truthy) schema is present — a `ValidationError` escapes uncaught —
then invokes `method(params, metadata)`, converting any exception raised
inside the handler into `ServerError`. -/
def call_method (svc : Service) (req : Req) (meta : Option Json) : Except CallExn Json :=
  match svc.lookup req.meth with
  | none => .error .keyError
  | some entry =>
    let run : Except CallExn Json :=
      match entry.method req.params meta with
      | .ok r => .ok r
      | .error _ => .error (.rpc .serverError)
    match entry.schema with
    | some validate =>
      match validate req.params with
      | some msg => .error (.validation msg)
      | none => run
    | none => run

/-- Python `x is None` on a decoded value: true exactly for the `None`
singleton. -/
def Json.isNull : Json → Bool
  | .null => true
  | _ => false

/-- `_handle_request`: the `'types'` branch is dead (`add` never stores that
key), so it calls `_call_method`, returns `None` for notifications
(`request['id'] is None`), and otherwise builds the success response in the
order `_fill_ver`, `result`, `id`. -/
def handle_request (svc : Service) (req : Req) (meta : Option Json) :
    Except CallExn (Option Obj) :=
  match call_method svc req meta with
  | .error e => .error e
  | .ok result =>
    if req.id.isNull then .ok none
    else
      let respond := fill_ver req.jsonrpc []
      let respond := setKey respond "result" result
      let respond := setKey respond "id" req.id
      .ok (some respond)

/-- First batch loop of `call_py`: fill each element's request; on
`InvalidRequestError` or any other `JSONRPCError` append
`_get_err(e, request_['id'])` (note: default `'2.0'` string version in both
handlers) when it is truthy, and drop the element; surviving requests are
collected in order. -/
def batch_phase1 (svc : Service) : List Json → List Obj × List Req
  | [] => ([], [])
  | rdata :: rest =>
    match (fill_request svc defaultReq rdata).2 with
    | some e =>
      ((get_err e (fill_request svc defaultReq rdata).1.id (.s "2.0")).toList ++
        (batch_phase1 svc rest).1, (batch_phase1 svc rest).2)
    | none =>
      ((batch_phase1 svc rest).1, (fill_request svc defaultReq rdata).1 :: (batch_phase1 svc rest).2)

/-- Exceptions that escape the second batch loop uncaught (its `except`
clause catches only `JSONRPCError`). -/
inductive EscExn where
  | validation : String → EscExn
  | keyError : EscExn

/-- Second batch loop of `call_py`: handle each surviving request, mapping a
raised `JSONRPCError` through `_get_err(e, request_['id'],
request_['jsonrpc'])`, appending non-`None` responses in order.  A
`ValidationError` (or `KeyError`) is not caught and aborts the loop. -/
def batch_phase2 (svc : Service) (meta : Option Json) : List Req → Except EscExn (List Obj)
  | [] => .ok []
  | req :: rest =>
    match handle_request svc req meta with
    | .ok none => batch_phase2 svc meta rest
    | .ok (some r) =>
      match batch_phase2 svc meta rest with
      | .ok l => .ok (r :: l)
      | .error e => .error e
    | .error (.rpc e) =>
      match batch_phase2 svc meta rest with
      | .ok l => .ok ((get_err e req.id req.jsonrpc).toList ++ l)
      | .error e' => .error e'
    | .error (.validation msg) => .error (.validation msg)
    | .error .keyError => .error .keyError

/-- Python exceptions that escape `call_py` itself to the embedding caller:
the `TypeError` raised by `json.loads` on a non-string argument (only
`ValueError` is caught and converted to `ParseError`), and the unreachable
`KeyError`. -/
inductive PyExn where
  | typeError : PyExn
  | keyError : PyExn

/-- Raw JSON text, modelled by its parse outcome under the external `json`
module: `ok v` is text that `json.loads` decodes to `v`; `bad` is malformed
text on which it raises `ValueError`. -/
inductive JsonText where
  | ok : Json → JsonText
  | bad : JsonText

/-- An argument to `call`/`call_py`: raw JSON text, or an already-decoded
non-string Python value (a dict or list, as the tests pass). -/
inductive PyInput where
  | text : JsonText → PyInput
  | value : Json → PyInput

/-- Build the `Option Json` return value from an optional response dict. -/
def omap (r : Option Obj) : Option Json := r.map Json.obj

/-- The body of `call_py` after a successful `json.loads`: single request for
a non-empty dict, batch for a non-empty list, otherwise
`InvalidRequestError`; the outer handlers dispatch `InvalidRequestError`
through `_get_err(e, request['id'])` (default `'2.0'` string version), other
`JSONRPCError`s through `_get_err(e, request['id'], request['jsonrpc'])`,
and a `ValidationError` through `_get_jsonschema_err` — where `request` is
the outer default-valued dict, filled only along the single path. -/
def single_path (svc : Service) (o : Obj) (meta : Option Json) :
    Except PyExn (Option Json) :=
  match (fill_request svc defaultReq (.obj o)).2 with
  | some .invalidRequest =>
    .ok (omap (get_err .invalidRequest (fill_request svc defaultReq (.obj o)).1.id (.s "2.0")))
  | some e =>
    .ok (omap (get_err e (fill_request svc defaultReq (.obj o)).1.id
      (fill_request svc defaultReq (.obj o)).1.jsonrpc))
  | none =>
    match handle_request svc (fill_request svc defaultReq (.obj o)).1 meta with
    | .ok r => .ok (omap r)
    | .error (.rpc .invalidRequest) =>
      .ok (omap (get_err .invalidRequest (fill_request svc defaultReq (.obj o)).1.id (.s "2.0")))
    | .error (.rpc e) =>
      .ok (omap (get_err e (fill_request svc defaultReq (.obj o)).1.id
        (fill_request svc defaultReq (.obj o)).1.jsonrpc))
    | .error (.validation msg) =>
      .ok (some (.obj (get_jsonschema_err msg (fill_request svc defaultReq (.obj o)).1.id
        (fill_request svc defaultReq (.obj o)).1.jsonrpc)))
    | .error .keyError => .error .keyError

def batch_path (svc : Service) (l : List Json) (meta : Option Json) :
    Except PyExn (Option Json) :=
  match batch_phase2 svc meta (batch_phase1 svc l).2 with
  | .error (.validation msg) =>
    .ok (some (.obj (get_jsonschema_err msg .null (.s "2.0"))))
  | .error .keyError => .error .keyError
  | .ok rs =>
    let responds := (batch_phase1 svc l).1 ++ rs
    if responds.isEmpty then .ok none
    else .ok (some (.arr (responds.map Json.obj)))

def processParsed (svc : Service) (rdata : Json) (meta : Option Json) :
    Except PyExn (Option Json) :=
  match rdata with
  | .obj o =>
    if o.isEmpty then .ok (omap (get_err .invalidRequest .null (.s "2.0")))
    else single_path svc o meta
  | .arr l =>
    if l.isEmpty then .ok (omap (get_err .invalidRequest .null (.s "2.0")))
    else batch_path svc l meta
  | _ => .ok (omap (get_err .invalidRequest .null (.s "2.0")))

/-- `JSONRPCService.call_py`: `json.loads` the input (malformed text →
`ParseError` response; a decoded non-string value → uncaught `TypeError`),
then process the decoded value. -/
def call_py (svc : Service) (input : PyInput) (meta : Option Json) :
    Except PyExn (Option Json) :=
  match input with
  | .text .bad => .ok (omap (get_err .parseError .null (.s "2.0")))
  | .value _ => .error .typeError
  | .text (.ok rdata) => processParsed svc rdata meta

/-- `JSONRPCService.call`: `call_py` followed by `json.dumps` on a
non-`None` result; the serialized text is modelled as the `JsonText` that
parses back to the same value. -/
def call (svc : Service) (input : PyInput) (meta : Option Json) :
    Except PyExn (Option JsonText) :=
  match call_py svc input meta with
  | .error e => .error e
  | .ok none => .ok none
  | .ok (some v) => .ok (some (.ok v))

/-! Concrete handlers and validators used to instantiate claims. -/

/-- A handler that ignores its arguments and returns `v`. -/
def hOk (v : Json) : Handler := fun _ _ => .ok v

/-- A handler that raises. -/
def hRaise : Handler := fun _ _ => .error ()

/-- A schema validator that rejects every params value with message `msg`. -/
def rejectAll (msg : String) : Validator := fun _ => some msg

/-! ### Spec-modelled custom server-error codes (claim C3)

`src/jsonrpcbase/main.py`'s `_call_method` maps every handler exception to
the default `ServerError`; the declared-custom-code mechanism is absent from
`src/` — only the declaration of `InvalidServerErrorCode` exists, in
`src/jsonrpcbase/exceptions.py` ("Invalid custom server error code (must be
-32000 - -32099)"). The resolution of a declared code is therefore modelled
from the spec. -/

/-- Modelled from the spec: the outcome of invoking a handler — a returned
value, or an unhandled exception optionally carrying a declared custom
server-error code. The declared-code mechanism is missing from `src/`. -/
inductive HandlerOutcome where
  | ok : Json → HandlerOutcome
  | exn : Option Int → HandlerOutcome

/-- Modelled from the spec: "any unhandled exception becomes a Server Error
(default code -32000) unless the exception carries an explicit custom code
in the reserved -32000..-32099 sub-range, in which case that code is used; a
custom code outside that sub-range is a fatal configuration error
(`InvalidServerErrorCode`)". `Except.error ()` is `InvalidServerErrorCode`
propagating to the embedding caller. -/
def resolveServerErrorCode (declared : Option Int) : Except Unit Int :=
  match declared with
  | none => .ok (-32000)
  | some c => if -32099 ≤ c ∧ c ≤ -32000 then .ok c else .error ()

/-- Modelled from the spec: dispatch of one handler outcome for a request
with id `id` — a result response, an error response whose `error.code` is
the resolved server-error code, or `InvalidServerErrorCode` raised to the
embedding caller with no response object produced. -/
def dispatch_spec (h : HandlerOutcome) (id : Json) : Except Unit Json :=
  match h with
  | .ok v => .ok (.obj [("jsonrpc", .str "2.0"), ("result", v), ("id", id)])
  | .exn d =>
    match resolveServerErrorCode d with
    | .ok code =>
      .ok (.obj [("jsonrpc", .str "2.0"), ("id", id),
        ("error", .obj [("code", .int code), ("message", .str "Server error")])])
    | .error () => .error ()

/-! ### Claim theorems -/

/-- C1 (code_bug): the claim says a failure on one batch element — expressly
including a params-schema violation — never aborts the siblings. In the
code, a `jsonschema` `ValidationError` raised for one element escapes the
per-element `except JSONRPCError` clauses, aborting the batch: the whole
`call_py` result collapses to a single `-32602` object with `id: None`
(built from the outer default request), and the sibling element — which on
its own produces a normal result response, as the second conjunct shows —
gets no response at all. -/
theorem C1_schema_violation_aborts_batch :
    call_py ⟨[("val", ⟨hOk .null, some (rejectAll "schema violation")⟩),
              ("okm", ⟨hOk (.str "fine"), none⟩)]⟩
      (.text (.ok (.arr [
        .obj [("jsonrpc", .str "2.0"), ("method", .str "val"),
              ("params", .arr []), ("id", .int 1)],
        .obj [("jsonrpc", .str "2.0"), ("method", .str "okm"), ("id", .int 2)]])))
      none =
    .ok (some (.obj [("id", .null),
      ("error", .obj [("message", .str "schema violation"), ("code", .int (-32602))])]))
    ∧
    call_py ⟨[("val", ⟨hOk .null, some (rejectAll "schema violation")⟩),
              ("okm", ⟨hOk (.str "fine"), none⟩)]⟩
      (.text (.ok (.obj [("jsonrpc", .str "2.0"), ("method", .str "okm"), ("id", .int 2)])))
      none =
    .ok (some (.obj [("jsonrpc", .str "2.0"), ("result", .str "fine"), ("id", .int 2)])) :=
  ⟨rfl, rfl⟩

/-- C2 (code_bug): the claim says a request lacking an id never produces a
response, even when parameter validation fails, and that a response is
emitted whenever the request has a determinable valid id. In the code,
first conjunct: a notification whose params fail the method's schema gets a
`-32602` response with `id: None`, because `_get_jsonschema_err` lacks the
notification suppression that `_get_err` has. Second conjunct: a request
with the determinable, valid id `0` that fails with Method Not Found gets
no response at all, because `_get_err` suppresses on the *falsy* check
`not id` rather than `id is None`. -/
theorem C2_response_emission_rule_violated :
    call_py ⟨[("val", ⟨hOk .null, some (rejectAll "schema violation")⟩)]⟩
      (.text (.ok (.obj [("jsonrpc", .str "2.0"), ("method", .str "val"),
        ("params", .obj [])])))
      none =
    .ok (some (.obj [("id", .null), ("jsonrpc", .str "2.0"),
      ("error", .obj [("message", .str "schema violation"), ("code", .int (-32602))])]))
    ∧
    call_py ⟨[]⟩
      (.text (.ok (.obj [("jsonrpc", .str "2.0"), ("method", .str "x"), ("id", .int 0)])))
      none =
    .ok none :=
  ⟨rfl, rfl⟩

/-- C3 (confirmed, spec-modelled): a handler exception with no declared code
resolves to the default Server Error code `-32000`; a declared code inside
the reserved `-32000..-32099` sub-range is used exactly as the response's
`error.code`; a declared code outside the sub-range makes
`InvalidServerErrorCode` propagate to the embedding caller (`Except.error`)
with no response object produced. -/
theorem C3_custom_server_error_codes (c : Int) (id : Json) :
    dispatch_spec (.exn none) id =
      .ok (.obj [("jsonrpc", .str "2.0"), ("id", id),
        ("error", .obj [("code", .int (-32000)), ("message", .str "Server error")])])
    ∧ (-32099 ≤ c ∧ c ≤ -32000 →
        dispatch_spec (.exn (some c)) id =
          .ok (.obj [("jsonrpc", .str "2.0"), ("id", id),
            ("error", .obj [("code", .int c), ("message", .str "Server error")])]))
    ∧ (¬(-32099 ≤ c ∧ c ≤ -32000) →
        dispatch_spec (.exn (some c)) id = .error ()) := by
  refine ⟨rfl, fun h => ?_, fun h => ?_⟩
  · simp [dispatch_spec, resolveServerErrorCode, if_pos h]
  · simp [dispatch_spec, resolveServerErrorCode, if_neg h]

/-- Witness for C3 at the spec's own examples: declared code `-32050` is in
the reserved sub-range and is used verbatim; declared code `-1` is out of
range and raises `InvalidServerErrorCode` to the caller. -/
theorem C3_custom_server_error_codes_witness :
    dispatch_spec (.exn (some (-32050))) (.int 1) =
      .ok (.obj [("jsonrpc", .str "2.0"), ("id", .int 1),
        ("error", .obj [("code", .int (-32050)), ("message", .str "Server error")])])
    ∧ dispatch_spec (.exn (some (-1))) (.int 1) = .error () :=
  ⟨(C3_custom_server_error_codes (-32050) (.int 1)).2.1 (by norm_num),
   (C3_custom_server_error_codes (-1) (.int 1)).2.2 (by norm_num)⟩

/-- C4 (code_bug): the claim (and the repo's own test
`test_method_not_found_error`) requires the `-32601` response to carry
`error.data.available_methods` equal to the registered-name set. In the
code, `MethodNotFoundError` is raised bare: the emitted error object is
exactly `{'code': -32601, 'message': 'Method not found'}` — the third
conjunct shows the error object of the produced response has no `data`
member at all. -/
theorem C4_method_not_found_without_available_methods :
    call_py ⟨[("hello", ⟨hOk (.str "hi"), none⟩)]⟩
      (.text (.ok (.obj [("jsonrpc", .str "2.0"), ("method", .str "nope"), ("id", .int 1)])))
      none =
    .ok (some (.obj [("id", .int 1), ("jsonrpc", .str "2.0"),
      ("error", .obj [("code", .int (-32601)), ("message", .str "Method not found")])]))
    ∧ lookupKey [("code", .int (-32601)), ("message", .str "Method not found")] "data" = none
    ∧ hasKey [("code", .int (-32601)), ("message", .str "Method not found")] "data" = false :=
  ⟨rfl, rfl, rfl⟩

/-- C5 (code_bug): the claim (and `exceptions.py`'s declaration of
`DuplicateMethodName`) says re-registering an existing name fails at
registration time and leaves the first entry in place. In the code, `add`
is a bare dict assignment: registering `"m"` twice raises nothing (`add` is
total) and silently replaces the first handler — the registry still has one
entry and a call to `"m"` now runs the second handler (result `2`, not
`1`). -/
theorem C5_add_overwrites_duplicate_name :
    (add (add ⟨[]⟩ "m" (hOk (.int 1)) none) "m" (hOk (.int 2)) none).method_data.length = 1
    ∧
    call_py (add (add ⟨[]⟩ "m" (hOk (.int 1)) none) "m" (hOk (.int 2)) none)
      (.text (.ok (.obj [("jsonrpc", .str "2.0"), ("method", .str "m"), ("id", .int 1)])))
      none =
    .ok (some (.obj [("jsonrpc", .str "2.0"), ("result", .int 2), ("id", .int 1)])) :=
  ⟨rfl, rfl⟩

/-- C6 (code_bug): the claim (and the repo's own tests, which call `call_py`
with dicts throughout) says the entry points accept an already-decoded
value. In the code, `call_py` passes its argument straight to `json.loads`,
which raises `TypeError` on a non-string; only `ValueError` is caught, so
for every decoded dict input both `call_py` and `call` raise `TypeError` to
the caller instead of returning a response. -/
theorem C6_decoded_input_raises_type_error :
    call_py ⟨[("m", ⟨hOk (.int 7), none⟩)]⟩
      (.value (.obj [("jsonrpc", .str "2.0"), ("method", .str "m"), ("id", .int 1)])) none
      = .error .typeError
    ∧
    call ⟨[("m", ⟨hOk (.int 7), none⟩)]⟩
      (.value (.obj [("jsonrpc", .str "2.0"), ("method", .str "m"), ("id", .int 1)])) none
      = .error .typeError :=
  ⟨rfl, rfl⟩

/-- Id values `_get_id` accepts: `str`, `int` (including Python `bool`),
`float`, or `None`. -/
def validIdType : Json → Bool
  | .str _ => true
  | .int _ => true
  | .float _ => true
  | .bool _ => true
  | .null => true
  | _ => false

/-- Params values that are scalars: neither an object, an array, nor `null`.
These are exactly the params types `_get_params` rejects. -/
def scalarParams : Json → Bool
  | .str _ => true
  | .int _ => true
  | .float _ => true
  | .bool _ => true
  | _ => false

/-- C9 counterexample: the claim includes `null` among the params values that
must produce Invalid Request `-32600`, but `_get_params` explicitly accepts
`None` (`rdata['params'] is None`): a request with `"params": null` is
dispatched normally and yields a result response, not an error. -/
theorem C9_null_params_accepted :
    call_py ⟨[("m", ⟨hOk (.int 7), none⟩)]⟩
      (.text (.ok (.obj [("jsonrpc", .str "2.0"), ("method", .str "m"),
        ("params", .null), ("id", .int 1)])))
      none =
    .ok (some (.obj [("jsonrpc", .str "2.0"), ("result", .int 7), ("id", .int 1)])) :=
  rfl

/-- C9 (corrected): for every single request whose envelope otherwise passes
(`jsonrpc: "2.0"`, registered method name, id of a valid type) and whose
`params` member is a scalar — a string, a number, or a boolean, but not
`null`, which `_get_params` accepts — the service produces the Invalid
Request error response with code `-32600`, echoing the request id. -/
theorem C9_scalar_params_invalid_request (svc : Service) (name : String)
    (idv pv : Json) (meta : Option Json)
    (hm : svc.hasMethod name = true) (hid : validIdType idv = true)
    (hp : scalarParams pv = true) :
    call_py svc (.text (.ok (.obj [("jsonrpc", .str "2.0"), ("method", .str name),
        ("params", pv), ("id", idv)]))) meta =
      .ok (some (.obj [("id", idv), ("jsonrpc", .str "2.0"),
        ("error", .obj [("code", .int (-32600)), ("message", .str "Invalid request")])])) := by
  rcases idv <;> rcases pv <;>
    simp_all [call_py, processParsed, single_path, fill_request, get_jsonrpc, get_id,
      get_method, get_params, get_err, lookupKey, isStrVal, setKey, fill_ver, falsy,
      errDumps, errCode, errMessage, omap, defaultReq, validIdType, scalarParams,
      RPCErr.isParse, RPCErr.isInvalidReq]

/-- Witness for C9 at a concrete service and request: string params with a
registered method yield the `-32600` Invalid Request response. -/
theorem C9_scalar_params_invalid_request_witness :
    (⟨[("m", ⟨hOk .null, none⟩)]⟩ : Service).hasMethod "m" = true
    ∧ validIdType (.int 1) = true
    ∧ scalarParams (.str "hi") = true
    ∧ call_py ⟨[("m", ⟨hOk .null, none⟩)]⟩
        (.text (.ok (.obj [("jsonrpc", .str "2.0"), ("method", .str "m"),
          ("params", .str "hi"), ("id", .int 1)]))) none =
      .ok (some (.obj [("id", .int 1), ("jsonrpc", .str "2.0"),
        ("error", .obj [("code", .int (-32600)), ("message", .str "Invalid request")])])) :=
  ⟨rfl, rfl, rfl,
    C9_scalar_params_invalid_request ⟨[("m", ⟨hOk .null, none⟩)]⟩ "m" (.int 1) (.str "hi")
      none rfl rfl rfl⟩

/-- C10 (confirmed): the envelope validator accepts a float id — `_get_id`
returns it unchanged for any request whose `id` member is a float — the
request is not treated as a notification (`request['id'] is None` is false),
and a successful invocation yields a response whose `id` equals that float
value. -/
theorem C10_float_id_accepted (q : Rat) (f : Handler) (meta : Option Json) (v : Json)
    (hf : f none meta = .ok v) :
    (∀ o : Obj, lookupKey o "id" = some (.float q) → get_id o = .ok (.float q))
    ∧ call_py ⟨[("m", ⟨f, none⟩)]⟩
        (.text (.ok (.obj [("jsonrpc", .str "2.0"), ("method", .str "m"),
          ("id", .float q)]))) meta =
        .ok (some (.obj [("jsonrpc", .str "2.0"), ("result", v), ("id", .float q)])) := by
  constructor
  · intro o ho
    simp [get_id, ho]
  · simp [call_py, processParsed, single_path, fill_request, get_jsonrpc, get_id, get_method,
      get_params, lookupKey, isStrVal, Service.hasMethod, Service.lookup, call_method,
      handle_request, Json.isNull, hf, fill_ver, setKey, omap, defaultReq, Ver.isInt]

/-- Witness for C10 with the float id `3/2`: the id is accepted and echoed
in the success response. -/
theorem C10_float_id_accepted_witness :
    hOk (.int 7) none none = .ok (.int 7)
    ∧ ((∀ o : Obj, lookupKey o "id" = some (.float (3/2)) → get_id o = .ok (.float (3/2)))
      ∧ call_py ⟨[("m", ⟨hOk (.int 7), none⟩)]⟩
          (.text (.ok (.obj [("jsonrpc", .str "2.0"), ("method", .str "m"),
            ("id", .float (3/2))]))) none =
          .ok (some (.obj [("jsonrpc", .str "2.0"), ("result", .int 7),
            ("id", .float (3/2))]))) :=
  ⟨rfl, C10_float_id_accepted (3/2) (hOk (.int 7)) none (.int 7) rfl⟩

/-- Whether an optional value is exactly Python `None`. -/
def isNullVal : Option Json → Bool
  | some .null => true
  | _ => false

/-- The (amended) response invariant: a response dict carries exactly one of
`result`/`error`, or is the deliberate v1.0 error shape — `result: None`
alongside `error`, with no `jsonrpc`/`version` marker (the source comments:
"v1.0 requires result to exist always"). -/
def respOk (o : Obj) : Bool :=
  (hasKey o "result" && !hasKey o "error") ||
  (!hasKey o "result" && hasKey o "error") ||
  (isNullVal (lookupKey o "result") && hasKey o "error" &&
    !hasKey o "jsonrpc" && !hasKey o "version")

/-- The response invariant on a JSON value: it must be a dict satisfying
`respOk`. -/
def respInvariantJ : Json → Bool
  | .obj o => respOk o
  | _ => false

/-- The invariant over a whole `call_py` output: nothing to check for the
absence sentinel; every element of a batch array, or the single response
object itself, satisfies the response invariant. -/
def outputOk : Option Json → Bool
  | none => true
  | some (.arr l) => l.all respInvariantJ
  | some j => respInvariantJ j

/-- Modelled from the spec: the round trip `json.loads(json.dumps(x))`
through the external `json` module returns an equal value for every
JSON-representable `x`; since `Json` ranges over exactly those values, the
round trip is the identity in the model. -/
def json_roundtrip (v : Json) : Json := v

/-- Every response `_get_err` emits satisfies the response invariant
(for v1.0 int versions it is the both-members shape; otherwise
error-only). -/
theorem respOk_get_err (e : RPCErr) (id : Json) (v : Ver) (r : Obj)
    (h : get_err e id v = some r) : respOk r = true := by
  unfold get_err at h
  by_cases hg : (falsy id && !e.isParse && !e.isInvalidReq) = true
  · rw [if_pos hg] at h
    exact absurd h (by simp)
  · rw [if_neg hg] at h
    simp only [Option.some.injEq] at h
    subst h
    cases v with
    | s s =>
      simp [respOk, hasKey, setKey, lookupKey]
    | i n =>
      by_cases h10 : n = 10
      · subst h10
        simp [respOk, hasKey, setKey, lookupKey, isNullVal]
      · by_cases h20 : n = 20
        · subst h20
          simp [respOk, hasKey, setKey, lookupKey, fill_ver, Ver.isInt]
        · by_cases h11 : n = 11
          · subst h11
            simp [respOk, hasKey, setKey, lookupKey, fill_ver, Ver.isInt]
          · simp [respOk, hasKey, setKey, lookupKey, fill_ver, Ver.isInt, h10, h20, h11]

/-- Every response `_get_jsonschema_err` builds satisfies the response
invariant. -/
theorem respOk_jsonschema (msg : String) (id : Json) (v : Ver) :
    respOk (get_jsonschema_err msg id v) = true := by
  unfold get_jsonschema_err
  cases v with
  | s s => simp [respOk, hasKey, setKey, lookupKey, fill_ver, Ver.isInt]
  | i n =>
    by_cases h10 : n = 10
    · subst h10
      simp [respOk, hasKey, setKey, lookupKey, isNullVal, Ver.isInt]
    · by_cases h20 : n = 20
      · subst h20
        simp [respOk, hasKey, setKey, lookupKey, fill_ver, Ver.isInt]
      · by_cases h11 : n = 11
        · subst h11
          simp [respOk, hasKey, setKey, lookupKey, fill_ver, Ver.isInt]
        · simp [respOk, hasKey, setKey, lookupKey, fill_ver, Ver.isInt, h10, h20, h11]

/-- Every success response `_handle_request` builds carries `result` and
never `error`. -/
theorem respOk_handle (svc : Service) (req : Req) (meta : Option Json) (r : Obj)
    (h : handle_request svc req meta = .ok (some r)) : respOk r = true := by
  unfold handle_request at h
  cases hcm : call_method svc req meta with
  | error e => rw [hcm] at h; exact absurd h (by simp)
  | ok result =>
    rw [hcm] at h
    dsimp only at h
    by_cases hid : req.id.isNull = true
    · rw [if_pos hid] at h
      exact absurd h (by simp)
    · rw [if_neg hid] at h
      simp only [Except.ok.injEq, Option.some.injEq] at h
      subst h
      cases hv : req.jsonrpc with
      | s s => simp [respOk, hasKey, setKey, lookupKey, fill_ver, Ver.isInt]
      | i n =>
        by_cases h20 : n = 20
        · subst h20
          simp [respOk, hasKey, setKey, lookupKey, fill_ver, Ver.isInt]
        · by_cases h11 : n = 11
          · subst h11
            simp [respOk, hasKey, setKey, lookupKey, fill_ver, Ver.isInt]
          · simp [respOk, hasKey, setKey, lookupKey, fill_ver, Ver.isInt, h20, h11]

/-- Every error response collected by the first batch loop satisfies the
response invariant. -/
theorem respOk_phase1 (svc : Service) (l : List Json) :
    ∀ r ∈ (batch_phase1 svc l).1, respOk r = true := by
  induction l with
  | nil => intro r hr; simp [batch_phase1] at hr
  | cons a rest ih =>
    intro r hr
    unfold batch_phase1 at hr
    cases hfr : (fill_request svc defaultReq a).2 with
    | none =>
      rw [hfr] at hr
      exact ih r hr
    | some e =>
      rw [hfr] at hr
      dsimp only at hr
      rw [List.mem_append] at hr
      rcases hr with hr | hr
      · cases hge : get_err e (fill_request svc defaultReq a).1.id (.s "2.0") with
        | none => rw [hge] at hr; simp at hr
        | some x =>
          rw [hge] at hr
          simp only [Option.toList, List.mem_singleton] at hr
          subst hr
          exact respOk_get_err _ _ _ _ hge
      · exact ih r hr

/-- Every response collected by the second batch loop satisfies the
response invariant. -/
theorem respOk_phase2 (svc : Service) (meta : Option Json) (reqs : List Req) (rs : List Obj)
    (h : batch_phase2 svc meta reqs = .ok rs) :
    ∀ r ∈ rs, respOk r = true := by
  induction reqs generalizing rs with
  | nil =>
    unfold batch_phase2 at h
    simp only [Except.ok.injEq] at h
    subst h
    intro r hr; simp at hr
  | cons req rest ih =>
    unfold batch_phase2 at h
    cases hh : handle_request svc req meta with
    | ok o =>
      rw [hh] at h
      cases o with
      | none => exact ih _ h
      | some x =>
        dsimp only at h
        cases hrec : batch_phase2 svc meta rest with
        | error e => rw [hrec] at h; exact absurd h (by simp)
        | ok l =>
          rw [hrec] at h
          simp only [Except.ok.injEq] at h
          subst h
          intro r hr
          rcases List.mem_cons.mp hr with rfl | hr
          · exact respOk_handle _ _ _ _ hh
          · exact ih _ hrec r hr
    | error e =>
      rw [hh] at h
      cases e with
      | rpc e' =>
        dsimp only at h
        cases hrec : batch_phase2 svc meta rest with
        | error e'' => rw [hrec] at h; exact absurd h (by simp)
        | ok l =>
          rw [hrec] at h
          simp only [Except.ok.injEq] at h
          subst h
          intro r hr
          rw [List.mem_append] at hr
          rcases hr with hr | hr
          · cases hge : get_err e' req.id req.jsonrpc with
            | none => rw [hge] at hr; simp at hr
            | some x =>
              rw [hge] at hr
              simp only [Option.toList, List.mem_singleton] at hr
              subst hr
              exact respOk_get_err _ _ _ _ hge
          · exact ih _ hrec r hr
      | validation msg => exact absurd h (by simp)
      | keyError => exact absurd h (by simp)

/-- Lifting `respOk_get_err` to an optional single-response output. -/
theorem outputOk_omap_get_err (e : RPCErr) (id : Json) (v : Ver) :
    outputOk (omap (get_err e id v)) = true := by
  cases hge : get_err e id v with
  | none => rfl
  | some r =>
    show respOk r = true
    exact respOk_get_err e id v r hge

/-- Lifting `respOk_jsonschema` to a single-response output. -/
theorem outputOk_jsonschema_resp (msg : String) (id : Json) (v : Ver) :
    outputOk (some (.obj (get_jsonschema_err msg id v))) = true := by
  show respOk (get_jsonschema_err msg id v) = true
  exact respOk_jsonschema msg id v

/-- Every output of the single-request path satisfies the output
invariant. -/
theorem outputOk_single (svc : Service) (o : Obj) (meta : Option Json) (out : Option Json)
    (h : single_path svc o meta = .ok out) : outputOk out = true := by
  unfold single_path at h
  cases hfr : (fill_request svc defaultReq (.obj o)).2 with
  | some e =>
    rw [hfr] at h
    cases e <;> dsimp only at h <;>
      simp only [Except.ok.injEq] at h <;> subst h <;> apply outputOk_omap_get_err
  | none =>
    rw [hfr] at h
    dsimp only at h
    cases hh : handle_request svc (fill_request svc defaultReq (.obj o)).1 meta with
    | ok r =>
      rw [hh] at h
      simp only [Except.ok.injEq] at h
      subst h
      cases r with
      | none => rfl
      | some x =>
        show respOk x = true
        exact respOk_handle _ _ _ _ hh
    | error e =>
      rw [hh] at h
      cases e with
      | rpc e' =>
        cases e' <;> dsimp only at h <;> simp only [Except.ok.injEq] at h <;> subst h <;>
          apply outputOk_omap_get_err
      | validation msg =>
        dsimp only at h
        simp only [Except.ok.injEq] at h
        subst h
        exact outputOk_jsonschema_resp _ _ _
      | keyError => exact absurd h (by simp)

/-- Every output of the batch path satisfies the output invariant. -/
theorem outputOk_batch (svc : Service) (l : List Json) (meta : Option Json) (out : Option Json)
    (h : batch_path svc l meta = .ok out) : outputOk out = true := by
  unfold batch_path at h
  cases hp2 : batch_phase2 svc meta (batch_phase1 svc l).2 with
  | error e =>
    rw [hp2] at h
    cases e with
    | validation msg =>
      dsimp only at h
      simp only [Except.ok.injEq] at h
      subst h
      exact outputOk_jsonschema_resp _ _ _
    | keyError => exact absurd h (by simp)
  | ok rs =>
    rw [hp2] at h
    dsimp only at h
    by_cases he : ((batch_phase1 svc l).1 ++ rs).isEmpty = true
    · rw [if_pos he] at h
      simp only [Except.ok.injEq] at h
      subst h
      rfl
    · rw [if_neg he] at h
      simp only [Except.ok.injEq] at h
      subst h
      show (((batch_phase1 svc l).1 ++ rs).map Json.obj).all respInvariantJ = true
      rw [List.all_eq_true]
      intro x hx
      rw [List.mem_map] at hx
      obtain ⟨r, hr, rfl⟩ := hx
      show respOk r = true
      rw [List.mem_append] at hr
      rcases hr with hr | hr
      · exact respOk_phase1 svc l r hr
      · exact respOk_phase2 svc meta _ rs hp2 r hr

/-- C7 (corrected, amended): every response object the service emits —
single, batch element, or batch-abort object — contains exactly one of
`result`/`error`, except error responses built for v1.0-style requests
(no `jsonrpc`/`version` declared), which deliberately carry `result: None`
alongside `error`; and the invariant still holds after the serialize/parse
round trip, which is the identity on JSON-representable values. -/
theorem C7_amended (svc : Service) (input : PyInput) (meta : Option Json) (out : Option Json)
    (h : call_py svc input meta = .ok out) :
    outputOk out = true ∧ outputOk (out.map json_roundtrip) = true := by
  have main : outputOk out = true := by
    cases input with
    | value v => exact absurd h (by simp [call_py])
    | text t =>
      cases t with
      | bad =>
        unfold call_py at h
        simp only [Except.ok.injEq] at h
        subst h
        rfl
      | ok rdata =>
        unfold call_py processParsed at h
        cases rdata with
        | obj o =>
          dsimp only at h
          by_cases he : o.isEmpty = true
          · rw [if_pos he] at h
            simp only [Except.ok.injEq] at h
            subst h
            rfl
          · rw [if_neg he] at h
            exact outputOk_single svc o meta out h
        | arr l =>
          dsimp only at h
          by_cases he : l.isEmpty = true
          · rw [if_pos he] at h
            simp only [Except.ok.injEq] at h
            subst h
            rfl
          · rw [if_neg he] at h
            exact outputOk_batch svc l meta out h
        | null => simp only [Except.ok.injEq] at h; subst h; rfl
        | bool b => simp only [Except.ok.injEq] at h; subst h; rfl
        | int n => simp only [Except.ok.injEq] at h; subst h; rfl
        | float q => simp only [Except.ok.injEq] at h; subst h; rfl
        | str s => simp only [Except.ok.injEq] at h; subst h; rfl
  refine ⟨main, ?_⟩
  have hrt : out.map json_roundtrip = out := by
    cases out <;> simp [json_roundtrip]
  rw [hrt]
  exact main


/-- C7 counterexample: a v1.0-style request (neither `jsonrpc` nor
`version` declared) that fails with Method Not Found produces a response
containing *both* a `result` member (`None`) and an `error` member,
refuting "exactly one of `result` and `error`, never both" as universally
stated. -/
theorem C7_v10_error_has_result_and_error :
    call_py ⟨[]⟩ (.text (.ok (.obj [("method", .str "nope"), ("id", .int 3)]))) none =
      .ok (some (.obj [("id", .int 3), ("result", .null), ("error", .str "Method not found")]))
    ∧ hasKey [("id", .int 3), ("result", .null), ("error", .str "Method not found")] "result" = true
    ∧ hasKey [("id", .int 3), ("result", .null), ("error", .str "Method not found")] "error" = true :=
  ⟨rfl, rfl, rfl⟩

/-- Witness for C7 at the parse-error output of an empty service. -/
theorem C7_amended_witness :
    outputOk (some (.obj [("id", .null), ("jsonrpc", .str "2.0"),
      ("error", .obj [("code", .int (-32700)), ("message", .str "Parse error")])])) = true
    ∧ outputOk (Option.map json_roundtrip (some (.obj [("id", .null), ("jsonrpc", .str "2.0"),
      ("error", .obj [("code", .int (-32700)), ("message", .str "Parse error")])]))) = true :=
  C7_amended ⟨[]⟩ (.text .bad) none _ rfl

/-- Whether handling this request raises an exception the batch loop does
not catch (a `jsonschema` `ValidationError` or a `KeyError`). -/
def handlerEscapes (svc : Service) (req : Req) (meta : Option Json) : Bool :=
  match handle_request svc req meta with
  | .error (.validation _) => true
  | .error .keyError => true
  | _ => false

/-- The response one batch element produces along the batch path: the
phase-1 error response (default `'2.0'` string version) when envelope
filling fails, otherwise the phase-2 outcome of `_handle_request`. -/
def batchElementResponse (svc : Service) (meta : Option Json) (rdata : Json) : Option Obj :=
  match (fill_request svc defaultReq rdata).2 with
  | some e => get_err e (fill_request svc defaultReq rdata).1.id (.s "2.0")
  | none =>
    match handle_request svc (fill_request svc defaultReq rdata).1 meta with
    | .ok r => r
    | .error (.rpc e) =>
      get_err e (fill_request svc defaultReq rdata).1.id
        (fill_request svc defaultReq rdata).1.jsonrpc
    | .error _ => none

/-- When every element passes envelope filling, the first batch loop
collects no error responses and keeps all requests in input order. -/
theorem phase1_all_ok (svc : Service) (l : List Json)
    (h : ∀ e ∈ l, (fill_request svc defaultReq e).2 = none) :
    batch_phase1 svc l = ([], l.map (fun e => (fill_request svc defaultReq e).1)) := by
  induction l with
  | nil => rfl
  | cons a rest ih =>
    have ha := h a (List.mem_cons_self a rest)
    have hr : ∀ e ∈ rest, (fill_request svc defaultReq e).2 = none :=
      fun e he => h e (List.mem_cons_of_mem a he)
    unfold batch_phase1
    rw [ha, ih hr]
    rfl

/-- When no element's handling raises an uncaught exception, the second
batch loop returns the per-request responses in input order, skipping
notifications. -/
theorem phase2_no_escape (svc : Service) (meta : Option Json) (reqs : List Req)
    (h : ∀ r ∈ reqs, handlerEscapes svc r meta = false) :
    batch_phase2 svc meta reqs = .ok (reqs.filterMap (fun r =>
      match handle_request svc r meta with
      | .ok x => x
      | .error (.rpc e) => get_err e r.id r.jsonrpc
      | .error _ => none)) := by
  induction reqs with
  | nil => rfl
  | cons req rest ih =>
    have hq := h req (List.mem_cons_self req rest)
    have hr : ∀ r ∈ rest, handlerEscapes svc r meta = false :=
      fun r hrr => h r (List.mem_cons_of_mem req hrr)
    unfold batch_phase2
    cases hh : handle_request svc req meta with
    | ok o =>
      cases o with
      | none => simp [List.filterMap_cons, hh, ih hr]
      | some x => simp [List.filterMap_cons, hh, ih hr]
    | error e =>
      cases e with
      | rpc e' =>
        cases hge : get_err e' req.id req.jsonrpc with
        | none => simp [List.filterMap_cons, hh, hge, ih hr]
        | some y => simp [List.filterMap_cons, hh, hge, ih hr]
      | validation msg =>
        unfold handlerEscapes at hq
        rw [hh] at hq
        exact absurd hq (by simp)
      | keyError =>
        unfold handlerEscapes at hq
        rw [hh] at hq
        exact absurd hq (by simp)

/-- C8 (corrected, amended): when every batch element passes envelope
validation (and none aborts the loop with an uncaught schema/key error),
the output array lists the elements' responses in exactly the input element
order, one per element that produces a response. (In general, the code
emits the envelope-rejection error responses of phase 1 ahead of all
phase-2 responses, so order across those two classes can invert, as the
counterexample shows; order within each class is preserved.) -/
theorem C8_amended (svc : Service) (elems : List Json) (meta : Option Json)
    (hne : elems ≠ [])
    (hfill : ∀ e ∈ elems, (fill_request svc defaultReq e).2 = none)
    (hesc : ∀ e ∈ elems, handlerEscapes svc (fill_request svc defaultReq e).1 meta = false) :
    call_py svc (.text (.ok (.arr elems))) meta =
      .ok (if (elems.filterMap (batchElementResponse svc meta)).isEmpty then none
           else some (.arr ((elems.filterMap (batchElementResponse svc meta)).map Json.obj))) := by
  have hle : elems.isEmpty = false := by
    cases elems with
    | nil => exact absurd rfl hne
    | cons a r => rfl
  show processParsed svc (.arr elems) meta = _
  unfold processParsed
  dsimp only
  rw [hle]
  simp only [Bool.false_eq_true, if_false]
  unfold batch_path
  rw [phase1_all_ok svc elems hfill]
  dsimp only
  rw [phase2_no_escape svc meta _ (by
    intro r hrr
    rw [List.mem_map] at hrr
    obtain ⟨e, he, rfl⟩ := hrr
    exact hesc e he)]
  dsimp only
  rw [List.filterMap_map]
  have hcomp : elems.filterMap ((fun r =>
      match handle_request svc r meta with
      | .ok x => x
      | .error (.rpc e) => get_err e r.id r.jsonrpc
      | .error _ => none) ∘ (fun e => (fill_request svc defaultReq e).1)) =
      elems.filterMap (batchElementResponse svc meta) := by
    apply List.filterMap_congr
    intro e he
    unfold batchElementResponse
    rw [hfill e he]
    rfl
  rw [hcomp]
  simp only [List.nil_append]
  split
  · rfl
  · rfl


/-- C8 counterexample: input element 0 is valid (id 1) and element 1 fails
envelope validation; both produce response objects, but the code collects
all envelope-error responses in a first pass, so element 1's error response
(id `None`, code -32600) precedes element 0's result response (id 1),
refuting input-order preservation as universally stated. -/
theorem C8_envelope_error_response_reordered :
    call_py ⟨[("hello", ⟨hOk (.str "hi"), none⟩)]⟩
      (.text (.ok (.arr [
        .obj [("jsonrpc", .str "2.0"), ("method", .str "hello"), ("id", .int 1)],
        .obj [("foo", .str "boo")]]))) none =
    .ok (some (.arr [
      .obj [("id", .null), ("jsonrpc", .str "2.0"),
        ("error", .obj [("code", .int (-32600)), ("message", .str "Invalid request")])],
      .obj [("jsonrpc", .str "2.0"), ("result", .str "hi"), ("id", .int 1)]])) :=
  rfl

/-- Witness for C8 on a three-element all-envelope-valid batch (two calls
with ids around a notification): responses come back in input order. -/
theorem C8_amended_witness :
    call_py ⟨[("hello", ⟨hOk (.str "hi"), none⟩)]⟩
      (.text (.ok (.arr [
        .obj [("jsonrpc", .str "2.0"), ("method", .str "hello"), ("id", .int 1)],
        .obj [("jsonrpc", .str "2.0"), ("method", .str "hello")],
        .obj [("jsonrpc", .str "2.0"), ("method", .str "hello"), ("id", .int 2)]]))) none =
      .ok (some (.arr [
        .obj [("jsonrpc", .str "2.0"), ("result", .str "hi"), ("id", .int 1)],
        .obj [("jsonrpc", .str "2.0"), ("result", .str "hi"), ("id", .int 2)]])) :=
  C8_amended ⟨[("hello", ⟨hOk (.str "hi"), none⟩)]⟩ _ none
    (List.cons_ne_nil _ _)
    (by
      intro e he
      simp only [List.mem_cons, List.not_mem_nil, or_false] at he
      rcases he with rfl | rfl | rfl <;> rfl)
    (by
      intro e he
      simp only [List.mem_cons, List.not_mem_nil, or_false] at he
      rcases he with rfl | rfl | rfl <;> rfl)

end JB
